import Mathlib

/-!
Shallow embedding of `src/src/CameraParams.cpp` (namespace `VIO`): the two
calibration parsers `CameraParams::parseYAML` and
`CameraParams::parseKITTICalib`, and the tolerance comparison
`CameraParams::equals`.  C++ `double` values are modelled by `ℚ`; reading an
out-of-range vector index (undefined behaviour in the C++) is modelled as
yielding `0`.
-/

/-- Reading `v[i]` on a C++ `std::vector`/`cv::Mat` slot; an out-of-range access is
undefined behaviour in the source and is modelled here as the default 0. -/
def getIdx {α : Type} [Zero α] (l : List α) (i : Nat) : α := l.getD i 0

/-- 3x3 matrix of scalars, modelling a `cv::Mat` of `CV_64F` doubles. -/
abbrev Mat3 := Matrix (Fin 3) (Fin 3) ℚ

/-- 3x1 column vector, modelling a 3x1 `cv::Mat`. -/
abbrev Vec3 := Fin 3 → ℚ

/-- C++ double-to-int conversion truncates toward zero (used when the legacy
parser builds `cv::Size` from the two `double` fields of an `S_` record). -/
def truncQ (q : ℚ) : Int := q.num.tdiv q.den

/-- Modelled from the spec: the downstream projection model `gtsam::Cal3DS2`
is external ("an opaque constructor taking 9 scalars": fx, fy, skew, u0, v0,
k1, k2, p1, p2). -/
structure Cal3DS2 where
  fx : ℚ
  fy : ℚ
  s : ℚ
  u0 : ℚ
  v0 : ℚ
  k1 : ℚ
  k2 : ℚ
  p1 : ℚ
  p2 : ℚ

/-- Rigid transform (rotation + translation), modelling `gtsam::Pose3`. -/
structure Pose3 where
  R : Mat3
  t : Vec3

/-- The canonical camera-parameter model: the fields of `CameraParams` that
the parsers and `equals` touch.  The rectification fields (`R_rectify_`, the
undistortion maps, `P_`) are populated only by a downstream stage and are kept
abstractly as flattened coefficient lists; they take part in `equals`. -/
structure CameraParams where
  intrinsics_ : List ℚ
  distortion_coeff_ : List ℚ
  image_size_ : Int × Int
  frame_rate_ : ℚ
  body_Pose_cam_ : Pose3
  camera_matrix_ : Mat3
  calibration_ : Cal3DS2
  R_rectify_ : List ℚ
  undistRect_map_x_ : List ℚ
  undistRect_map_y_ : List ℚ
  P_ : List ℚ

/-- The matrix `cv::Mat::eye(3, 3)` with entries (0,0), (1,1), (0,2), (1,2) overwritten
by the four intrinsics — the block duplicated at lines 61-65 (`parseYAML`) and
lines 125-129 (`parseKITTICalib`). -/
def cameraMatrixOf (intr : List ℚ) : Mat3 := fun i j =>
  if i = 0 ∧ j = 0 then getIdx intr 0
  else if i = 1 ∧ j = 1 then getIdx intr 1
  else if i = 0 ∧ j = 2 then getIdx intr 2
  else if i = 1 ∧ j = 2 then getIdx intr 3
  else if i = j then 1 else 0

/-- The `gtsam::Cal3DS2` constructor call shared by both parsers (lines 67-75
and 166-174): four intrinsics, skew fixed at 0, and only the first four
distortion coefficients. -/
def mkCalibration (intr d : List ℚ) : Cal3DS2 :=
  { fx := getIdx intr 0, fy := getIdx intr 1, s := 0,
    u0 := getIdx intr 2, v0 := getIdx intr 3,
    k1 := getIdx d 0, k2 := getIdx d 1, p1 := getIdx d 2, p2 := getIdx d 3 }

/-- Modelled from the spec: `UtilsOpenCV::Vec2pose` is repository code not
under src/; §4.1 says the flattened row-major `rows x cols` transform data is
reshaped into a rotation+translation pair (top-left 3x3 block; the first three
entries of the last column). -/
def Vec2pose (v : List ℚ) (rows cols : Int) : Pose3 :=
  { R := fun i j => getIdx v (cols.toNat * i.val + j.val),
    t := fun i => getIdx v (cols.toNat * i.val + (cols.toNat - 1)) }

/-- Modelled from the spec: `UtilsOpenCV::Cvmats2pose` is repository code not
under src/; it packs a rotation matrix and a translation vector into a pose. -/
def Cvmats2pose (r : Mat3) (t : Vec3) : Pose3 := { R := r, t := t }

/-- The typed values the structured-file reader (`cv::FileStorage`, out of
scope per the spec) yields for the keys `parseYAML` queries; a missing key
yields an empty sequence / zero scalar. -/
structure YamlInput where
  intrinsics : List ℚ
  distortion_coefficients : List ℚ
  resolution : List Int
  rate_hz : Int
  tbs_rows : Int
  tbs_cols : Int
  tbs_data : List ℚ

/-- The function `CameraParams::parseYAML` (lines 21-78): populate the model from the
structured file and return `true`.  The C++ computes `frame_rate_ = 1 /
double(rate)` with no zero guard; the division is rational here (so `rate = 0`
gives `0` where the IEEE doubles of the source give `+inf`). -/
def parseYAML (fs : YamlInput) (m : CameraParams) : CameraParams × Bool :=
  let intr := fs.intrinsics
  let d4 := fs.distortion_coefficients
  ({ m with
      intrinsics_ := intr,
      distortion_coeff_ := (List.range 5).map (fun k => if k < 4 then getIdx d4 k else 0),
      image_size_ := (getIdx fs.resolution 0, getIdx fs.resolution 1),
      frame_rate_ := 1 / (fs.rate_hz : ℚ),
      body_Pose_cam_ := Vec2pose fs.tbs_data fs.tbs_rows fs.tbs_cols,
      camera_matrix_ := cameraMatrixOf intr,
      calibration_ := mkCalibration intr d4 }, true)

/-- One non-blank line of the legacy calibration file: the leading label token
and the numeric fields after it.  A failed `ss >> value` extraction in the C++
value-initialises the target to 0 (C++11), matching `getIdx`'s default. -/
structure KLine where
  label : String
  vals : List ℚ

/-- The state mutated by the legacy parser's read loop: the model being
filled, the accumulated `distortion_coeff5_` vector (declared at function
scope in the C++, line 97, so repeated `D_` records append to it), and the
zero-initialised locals `cvR`, `cvT` (lines 90-91). -/
structure KittiState where
  params : CameraParams
  d5 : List ℚ
  cvR : Mat3
  cvT : Vec3

/-- The body of the legacy parser's read loop (lines 103-157): dispatch on the
leading label token; a line whose label matches none of the five recognized
labels leaves the state untouched. -/
def processLine (cam_id : String) (st : KittiState) (l : KLine) : KittiState :=
  if l.label = "S_" ++ cam_id ++ ":" then
    { st with params := { st.params with
        image_size_ := (truncQ (getIdx l.vals 0), truncQ (getIdx l.vals 1)) } }
  else if l.label = "K_" ++ cam_id ++ ":" then
    let intr := [getIdx l.vals 0, getIdx l.vals 4, getIdx l.vals 2, getIdx l.vals 5]
    { st with params := { st.params with
        intrinsics_ := intr,
        camera_matrix_ := cameraMatrixOf intr } }
  else if l.label = "D_" ++ cam_id ++ ":" then
    let d5 := st.d5 ++ l.vals
    { st with d5 := d5,
              params := { st.params with
                distortion_coeff_ := (List.range 5).map (fun k => getIdx d5 k) } }
  else if l.label = "R_" ++ cam_id ++ ":" then
    { st with cvR := fun i j => getIdx l.vals (3 * i.val + j.val) }
  else if l.label = "T_" ++ cam_id ++ ":" then
    { st with cvT := fun i => getIdx l.vals i.val }
  else st

/-- The read loop of `parseKITTICalib`: fold over the file's non-blank lines,
starting from the model with `frame_rate_` already fixed to 1/10 (line 87) and
the zero-initialised scan state. -/
def kittiScan (cam_id : String) (filelines : List KLine) (m : CameraParams) : KittiState :=
  filelines.foldl (processLine cam_id)
    { params := { m with frame_rate_ := 1 / 10 }, d5 := [], cvR := 0, cvT := 0 }

/-- The function `CameraParams::parseKITTICalib` (lines 82-178): scan the file, then
compose the pose — rotation by matrix product `R_cam_to_imu * cvR`,
translation by plain vector addition `T_cam_to_imu + cvT` (lines 161-162) —
and build the calibration from the intrinsics plus the first four parsed
distortion coefficients (lines 166-174); always returns `true`. -/
def parseKITTICalib (filelines : List KLine) (R_cam_to_imu : Mat3)
    (T_cam_to_imu : Vec3) (cam_id : String) (m : CameraParams) : CameraParams × Bool :=
  let st := kittiScan cam_id filelines m
  let cvR := R_cam_to_imu * st.cvR
  let cvT := T_cam_to_imu + st.cvT
  ({ st.params with
      body_Pose_cam_ := Cvmats2pose cvR cvT,
      calibration_ := mkCalibration st.params.intrinsics_ st.d5 }, true)

/-- Modelled from the spec: `gtsam::Pose3::equals` is external; §4.3 reads
"the pose equals under the same tolerance" — elementwise absolute difference
within `tol`. -/
def Pose3.equals (p q : Pose3) (tol : ℚ) : Bool :=
  decide (∀ i j, |p.R i j - q.R i j| ≤ tol) && decide (∀ i, |p.t i - q.t i| ≤ tol)

/-- Modelled from the spec: `gtsam::Cal3DS2::equals` is external; §4.3 reads
"the projection model equals under tolerance" — each of the nine scalars
within `tol`. -/
def Cal3DS2.equals (a b : Cal3DS2) (tol : ℚ) : Bool :=
  decide (|a.fx - b.fx| ≤ tol) && decide (|a.fy - b.fy| ≤ tol) &&
  decide (|a.s - b.s| ≤ tol) && decide (|a.u0 - b.u0| ≤ tol) &&
  decide (|a.v0 - b.v0| ≤ tol) && decide (|a.k1 - b.k1| ≤ tol) &&
  decide (|a.k2 - b.k2| ≤ tol) && decide (|a.p1 - b.p1| ≤ tol) &&
  decide (|a.p2 - b.p2| ≤ tol)

/-- Modelled from the spec: `UtilsOpenCV::CvMatCmp` is repository code not
under src/; §4.3 says the derived matrices must "match elementwise", and
`equals` calls it without forwarding its tolerance argument, so the comparison
does not depend on `tol`. -/
def CvMatCmp {α : Type} [DecidableEq α] (a b : α) : Bool := decide (a = b)

/-- The function `CameraParams::equals` (lines 207-227).  Every clause is conjoined; note
the strict `<` on the frame-rate clause (line 217) against the `≤`-style
comparisons of the other tolerance clauses, and the `CvMatCmp` calls that do
not receive `tol`. -/
def CameraParams.equals (self camPar : CameraParams) (tol : ℚ) : Bool :=
  (List.range self.intrinsics_.length).all
    (fun i => !(decide (|getIdx self.intrinsics_ i - getIdx camPar.intrinsics_ i| > tol))) &&
  Pose3.equals self.body_Pose_cam_ camPar.body_Pose_cam_ tol &&
  decide (|self.frame_rate_ - camPar.frame_rate_| < tol) &&
  (self.image_size_.1 == camPar.image_size_.1) &&
  (self.image_size_.2 == camPar.image_size_.2) &&
  Cal3DS2.equals self.calibration_ camPar.calibration_ tol &&
  CvMatCmp self.camera_matrix_ camPar.camera_matrix_ &&
  CvMatCmp self.distortion_coeff_ camPar.distortion_coeff_ &&
  CvMatCmp self.undistRect_map_x_ camPar.undistRect_map_x_ &&
  CvMatCmp self.undistRect_map_y_ camPar.undistRect_map_y_ &&
  CvMatCmp self.R_rectify_ camPar.R_rectify_ &&
  CvMatCmp self.P_ camPar.P_

/-- Modelled from the spec: the model is "constructed empty" (§3) before a
parse populates it; numeric fields default to zero, sequences to empty. -/
def CameraParams.empty : CameraParams :=
  { intrinsics_ := [], distortion_coeff_ := [], image_size_ := (0, 0),
    frame_rate_ := 0, body_Pose_cam_ := { R := 0, t := 0 }, camera_matrix_ := 0,
    calibration_ := mkCalibration [] [], R_rectify_ := [],
    undistRect_map_x_ := [], undistRect_map_y_ := [], P_ := [] }

/-- The five labels the legacy parser's dispatch recognises for a camera id. -/
def recognizedLabel (cam_id lab : String) : Bool :=
  lab == "S_" ++ cam_id ++ ":" || lab == "K_" ++ cam_id ++ ":" ||
  lab == "D_" ++ cam_id ++ ":" || lab == "R_" ++ cam_id ++ ":" ||
  lab == "T_" ++ cam_id ++ ":"

/-- The consistency invariant of §3: the four overwritten entries of the
derived `camera_matrix_` agree with `intrinsics_`. -/
def camMatrixConsistent (m : CameraParams) : Prop :=
  m.camera_matrix_ 0 0 = getIdx m.intrinsics_ 0 ∧
  m.camera_matrix_ 1 1 = getIdx m.intrinsics_ 1 ∧
  m.camera_matrix_ 0 2 = getIdx m.intrinsics_ 2 ∧
  m.camera_matrix_ 1 2 = getIdx m.intrinsics_ 3

/-- A concrete structured input used for concrete evaluations. -/
def sampleYamlInput : YamlInput :=
  { intrinsics := [458, 457, 367, 248],
    distortion_coefficients := [1, 2, 3, 4],
    resolution := [752, 480],
    rate_hz := 20,
    tbs_rows := 4, tbs_cols := 4,
    tbs_data := [1, 0, 0, 0, 0, 1, 0, 0, 0, 0, 1, 0, 0, 0, 0, 1] }

/-- A concrete successfully parsed model. -/
def sampleModel : CameraParams := (parseYAML sampleYamlInput CameraParams.empty).1

/-! ## Helper lemmas -/

theorem processLine_unrecognized (cam_id : String) (st : KittiState) (l : KLine)
    (h : recognizedLabel cam_id l.label = false) : processLine cam_id st l = st := by
  unfold recognizedLabel at h
  simp only [Bool.or_eq_false_iff, beq_eq_false_iff_ne, ne_eq] at h
  obtain ⟨⟨⟨⟨hS, hK⟩, hD⟩, hR⟩, hT⟩ := h
  unfold processLine
  rw [if_neg hS, if_neg hK, if_neg hD, if_neg hR, if_neg hT]

theorem processLine_image_size (cam_id : String) (st : KittiState) (l : KLine)
    (h : l.label ≠ "S_" ++ cam_id ++ ":") :
    (processLine cam_id st l).params.image_size_ = st.params.image_size_ := by
  unfold processLine
  rw [if_neg h]
  repeat' split
  all_goals rfl

theorem foldl_image_size (cam_id : String) (ls : List KLine) (st : KittiState)
    (h : ∀ l ∈ ls, l.label ≠ "S_" ++ cam_id ++ ":") :
    (ls.foldl (processLine cam_id) st).params.image_size_ = st.params.image_size_ := by
  induction ls generalizing st with
  | nil => rfl
  | cons a as ih =>
      rw [List.foldl_cons, ih _ (fun l hl => h l (List.mem_cons_of_mem a hl)),
        processLine_image_size cam_id st a (h a (List.mem_cons_self a as))]

theorem processLine_intrinsics (cam_id : String) (st : KittiState) (l : KLine)
    (h : l.label ≠ "K_" ++ cam_id ++ ":") :
    (processLine cam_id st l).params.intrinsics_ = st.params.intrinsics_ ∧
    (processLine cam_id st l).params.camera_matrix_ = st.params.camera_matrix_ := by
  unfold processLine
  repeat' split
  all_goals first
  | exact absurd (by assumption) h
  | exact ⟨rfl, rfl⟩

theorem foldl_intrinsics (cam_id : String) (ls : List KLine) (st : KittiState)
    (h : ∀ l ∈ ls, l.label ≠ "K_" ++ cam_id ++ ":") :
    (ls.foldl (processLine cam_id) st).params.intrinsics_ = st.params.intrinsics_ ∧
    (ls.foldl (processLine cam_id) st).params.camera_matrix_ = st.params.camera_matrix_ := by
  induction ls generalizing st with
  | nil => exact ⟨rfl, rfl⟩
  | cons a as ih =>
      have h1 := processLine_intrinsics cam_id st a (h a (List.mem_cons_self a as))
      have h2 := ih (processLine cam_id st a) (fun l hl => h l (List.mem_cons_of_mem a hl))
      exact ⟨h2.1.trans h1.1, h2.2.trans h1.2⟩

theorem processLine_distortion (cam_id : String) (st : KittiState) (l : KLine)
    (h : l.label ≠ "D_" ++ cam_id ++ ":") :
    (processLine cam_id st l).params.distortion_coeff_ = st.params.distortion_coeff_ := by
  unfold processLine
  repeat' split
  all_goals first
  | exact absurd (by assumption) h
  | rfl

theorem foldl_distortion (cam_id : String) (ls : List KLine) (st : KittiState)
    (h : ∀ l ∈ ls, l.label ≠ "D_" ++ cam_id ++ ":") :
    (ls.foldl (processLine cam_id) st).params.distortion_coeff_ = st.params.distortion_coeff_ := by
  induction ls generalizing st with
  | nil => rfl
  | cons a as ih =>
      rw [List.foldl_cons, ih _ (fun l hl => h l (List.mem_cons_of_mem a hl)),
        processLine_distortion cam_id st a (h a (List.mem_cons_self a as))]

theorem processLine_cvR (cam_id : String) (st : KittiState) (l : KLine)
    (h : l.label ≠ "R_" ++ cam_id ++ ":") :
    (processLine cam_id st l).cvR = st.cvR := by
  unfold processLine
  repeat' split
  all_goals first
  | exact absurd (by assumption) h
  | rfl

theorem foldl_cvR (cam_id : String) (ls : List KLine) (st : KittiState)
    (h : ∀ l ∈ ls, l.label ≠ "R_" ++ cam_id ++ ":") :
    (ls.foldl (processLine cam_id) st).cvR = st.cvR := by
  induction ls generalizing st with
  | nil => rfl
  | cons a as ih =>
      rw [List.foldl_cons, ih _ (fun l hl => h l (List.mem_cons_of_mem a hl)),
        processLine_cvR cam_id st a (h a (List.mem_cons_self a as))]

theorem processLine_cvT (cam_id : String) (st : KittiState) (l : KLine)
    (h : l.label ≠ "T_" ++ cam_id ++ ":") :
    (processLine cam_id st l).cvT = st.cvT := by
  unfold processLine
  repeat' split
  all_goals first
  | exact absurd (by assumption) h
  | rfl

theorem foldl_cvT (cam_id : String) (ls : List KLine) (st : KittiState)
    (h : ∀ l ∈ ls, l.label ≠ "T_" ++ cam_id ++ ":") :
    (ls.foldl (processLine cam_id) st).cvT = st.cvT := by
  induction ls generalizing st with
  | nil => rfl
  | cons a as ih =>
      rw [List.foldl_cons, ih _ (fun l hl => h l (List.mem_cons_of_mem a hl)),
        processLine_cvT cam_id st a (h a (List.mem_cons_self a as))]

theorem processLine_consistent (cam_id : String) (st : KittiState) (l : KLine)
    (h : camMatrixConsistent st.params) :
    camMatrixConsistent (processLine cam_id st l).params := by
  unfold processLine
  repeat' split
  all_goals first
  | exact h
  | exact ⟨rfl, rfl, rfl, rfl⟩

theorem foldl_consistent (cam_id : String) (ls : List KLine) (st : KittiState)
    (h : camMatrixConsistent st.params) :
    camMatrixConsistent ((ls.foldl (processLine cam_id) st).params) := by
  induction ls generalizing st with
  | nil => exact h
  | cons a as ih => exact ih _ (processLine_consistent cam_id st a h)

theorem foldl_filter_recognized (cam_id : String) (ls : List KLine) (st : KittiState) :
    (ls.filter (fun l => recognizedLabel cam_id l.label)).foldl (processLine cam_id) st
      = ls.foldl (processLine cam_id) st := by
  induction ls generalizing st with
  | nil => rfl
  | cons a as ih =>
      rw [List.filter_cons]
      by_cases h : recognizedLabel cam_id a.label
      · rw [if_pos (by simpa using h), List.foldl_cons, List.foldl_cons, ih]
      · rw [if_neg (by simpa using h), List.foldl_cons,
          processLine_unrecognized cam_id st a (by simpa using h), ih]

theorem equals_refl_of_pos (m : CameraParams) (t : ℚ) (ht : 0 < t) :
    CameraParams.equals m m t = true := by
  have ht' : (0 : ℚ) ≤ t := le_of_lt ht
  unfold CameraParams.equals Pose3.equals Cal3DS2.equals CvMatCmp
  simp [sub_self, abs_zero, ht, ht', lt_asymm ht]

/-! ## Claim theorems -/

/-- C10: whatever the input, `parseYAML` and `parseKITTICalib` both return
`true`; the boolean return value never signals a failure. -/
theorem parsers_always_return_true :
    (∀ fs m, (parseYAML fs m).2 = true) ∧
    (∀ filelines R_ref T_ref cam_id m,
      (parseKITTICalib filelines R_ref T_ref cam_id m).2 = true) :=
  ⟨fun _ _ => rfl, fun _ _ _ _ _ => rfl⟩

/-- C3: the legacy parser composes the body-to-camera pose as rotation
`R_ref * R_parsed` and translation `T_ref + T_parsed`; with `R_ref = 1` and
`T_ref = 0`, the pose rotation and translation equal the raw scanned `R` and
`T` exactly. -/
theorem parseKITTICalib_pose_composition (filelines : List KLine) (R_ref : Mat3)
    (T_ref : Vec3) (cam_id : String) (m : CameraParams) :
    ((parseKITTICalib filelines R_ref T_ref cam_id m).1.body_Pose_cam_.R
        = R_ref * (kittiScan cam_id filelines m).cvR ∧
     (parseKITTICalib filelines R_ref T_ref cam_id m).1.body_Pose_cam_.t
        = T_ref + (kittiScan cam_id filelines m).cvT) ∧
    ((parseKITTICalib filelines 1 0 cam_id m).1.body_Pose_cam_.R
        = (kittiScan cam_id filelines m).cvR ∧
     (parseKITTICalib filelines 1 0 cam_id m).1.body_Pose_cam_.t
        = (kittiScan cam_id filelines m).cvT) :=
  ⟨⟨rfl, rfl⟩, one_mul _, zero_add _⟩

/-- C4: a structured-format parse with exactly four distortion coefficients
yields the canonical 5-slot sequence: the four inputs in order, then 0. -/
theorem parseYAML_distortion_pad (fs : YamlInput) (m : CameraParams)
    (h : fs.distortion_coefficients.length = 4) :
    (parseYAML fs m).1.distortion_coeff_ = fs.distortion_coefficients ++ [0] := by
  rcases hd : fs.distortion_coefficients with _ | ⟨a, _ | ⟨b, _ | ⟨c, _ | ⟨d, _ | ⟨e, tl⟩⟩⟩⟩⟩ <;>
    rw [hd] at h <;> simp at h
  simp [parseYAML, hd, getIdx, List.range_succ]

/-- Witness for C4 at a concrete four-coefficient input. -/
theorem parseYAML_distortion_pad_witness :
    (sampleYamlInput.distortion_coefficients.length = 4) ∧
    (parseYAML sampleYamlInput CameraParams.empty).1.distortion_coeff_
      = sampleYamlInput.distortion_coefficients ++ [0] :=
  ⟨rfl, parseYAML_distortion_pad sampleYamlInput CameraParams.empty rfl⟩

/-- C1: the derived camera matrix stays consistent with the intrinsics.  A
`parseYAML` result satisfies the §3 consistency invariant unconditionally; a
`parseKITTICalib` result satisfies it whenever the model it starts from does
(a `K_` record rebuilds the matrix and the intrinsics together; with no `K_`
record both fields are left untouched). -/
theorem parsed_cameraMatrix_consistent :
    (∀ fs m, camMatrixConsistent (parseYAML fs m).1) ∧
    (∀ filelines R_ref T_ref cam_id m, camMatrixConsistent m →
      camMatrixConsistent (parseKITTICalib filelines R_ref T_ref cam_id m).1) := by
  constructor
  · exact fun fs m => ⟨rfl, rfl, rfl, rfl⟩
  · intro filelines R_ref T_ref cam_id m hm
    have hscan : camMatrixConsistent (kittiScan cam_id filelines m).params :=
      foldl_consistent cam_id filelines _ hm
    exact hscan

/-- Witness for C1: concrete runs of both parsers. -/
theorem parsed_cameraMatrix_consistent_witness :
    camMatrixConsistent (parseYAML sampleYamlInput CameraParams.empty).1 ∧
    camMatrixConsistent CameraParams.empty ∧
    camMatrixConsistent
      (parseKITTICalib [⟨"K_0:", [7, 0, 3, 0, 8, 4, 0, 0, 1]⟩] 1 0 ("0")
        CameraParams.empty).1 :=
  ⟨parsed_cameraMatrix_consistent.1 sampleYamlInput CameraParams.empty,
   ⟨rfl, rfl, rfl, rfl⟩,
   parsed_cameraMatrix_consistent.2 [⟨"K_0:", [7, 0, 3, 0, 8, 4, 0, 0, 1]⟩] 1 0 ("0")
     CameraParams.empty ⟨rfl, rfl, rfl, rfl⟩⟩

/-- A structured input whose `rate_hz` is zero. -/
def zeroRateInput : YamlInput :=
  { intrinsics := [458, 457, 367, 248],
    distortion_coefficients := [1, 2, 3, 4],
    resolution := [752, 480],
    rate_hz := 0,
    tbs_rows := 4, tbs_cols := 4,
    tbs_data := [1, 0, 0, 0, 0, 1, 0, 0, 0, 0, 1, 0, 0, 0, 0, 1] }

/-- C2: the function `parseYAML` has no division-by-zero guard — on an input with
`rate_hz = 0` it is not rejected: it still returns `true`, and the stored
frame rate is the unguarded `1 / 0` (which is IEEE `+inf` in the C++ doubles;
`0` in this rational model). -/
theorem parseYAML_zero_rate_not_rejected :
    (parseYAML zeroRateInput CameraParams.empty).2 = true ∧
    (parseYAML zeroRateInput CameraParams.empty).1.frame_rate_
      = 1 / ((0 : Int) : ℚ) :=
  ⟨rfl, rfl⟩

/-- C5 counterexample: the claim as stated is false on the code.  For the
concrete successfully parsed model `sampleModel`, `equals sampleModel
sampleModel 0` is `false`: the frame-rate clause at line 217 is the strict
`|frame_rate_ - frame_rate_| < tol`, which fails at `tol = 0`. -/
theorem equals_self_zero_tol_false :
    CameraParams.equals sampleModel sampleModel 0 = false := by
  have hfr : (decide (|sampleModel.frame_rate_ - sampleModel.frame_rate_| < (0 : ℚ)))
      = false := by simp
  unfold CameraParams.equals
  rw [hfr]
  simp

/-- C5 (amended): reflexivity of `equals` holds at every strictly positive
tolerance — `equals m m t = true` for all `t > 0` — but not at `t = 0`. -/
theorem equals_self_pos_tol (m : CameraParams) (t : ℚ) (ht : 0 < t) :
    CameraParams.equals m m t = true :=
  equals_refl_of_pos m t ht

/-- Witness for the amended C5 at `t = 1`. -/
theorem equals_self_pos_tol_witness :
    (0 : ℚ) < 1 ∧ CameraParams.equals sampleModel sampleModel 1 = true :=
  ⟨by decide, equals_self_pos_tol sampleModel 1 (by decide)⟩

/-- C6: the comparison `equals` is monotonic in its tolerance: if `equals a b t = true` and
`t < t'` then `equals a b t' = true`.  Every tolerance-dependent clause is an
upper bound on a fixed absolute difference (`≤ tol` or `< tol`), and the
remaining clauses do not mention the tolerance. -/
theorem equals_tol_monotone (a b : CameraParams) (t t' : ℚ)
    (h : CameraParams.equals a b t = true) (htt : t < t') :
    CameraParams.equals a b t' = true := by
  unfold CameraParams.equals Pose3.equals Cal3DS2.equals at h ⊢
  simp only [Bool.and_eq_true, List.all_eq_true, List.mem_range, Bool.not_eq_true',
    decide_eq_false_iff_not, decide_eq_true_eq, not_lt, gt_iff_lt] at h ⊢
  obtain ⟨⟨⟨⟨⟨⟨⟨⟨⟨⟨⟨hIntr, ⟨hPR, hPt⟩⟩, hFr⟩, hW⟩, hH⟩, hCal⟩, hCM⟩, hDC⟩, hUX⟩, hUY⟩, hRR⟩, hP⟩ := h
  refine ⟨⟨⟨⟨⟨⟨⟨⟨⟨⟨⟨?_, ⟨?_, ?_⟩⟩, ?_⟩, hW⟩, hH⟩, ?_⟩, hCM⟩, hDC⟩, hUX⟩, hUY⟩, hRR⟩, hP⟩
  · exact fun i hi => le_trans (hIntr i hi) htt.le
  · exact fun i j => le_trans (hPR i j) htt.le
  · exact fun i => le_trans (hPt i) htt.le
  · exact lt_trans hFr htt
  · obtain ⟨⟨⟨⟨⟨⟨⟨⟨c1, c2⟩, c3⟩, c4⟩, c5⟩, c6⟩, c7⟩, c8⟩, c9⟩ := hCal
    exact ⟨⟨⟨⟨⟨⟨⟨⟨le_trans c1 htt.le, le_trans c2 htt.le⟩, le_trans c3 htt.le⟩,
      le_trans c4 htt.le⟩, le_trans c5 htt.le⟩, le_trans c6 htt.le⟩,
      le_trans c7 htt.le⟩, le_trans c8 htt.le⟩, le_trans c9 htt.le⟩

/-- Witness for C6: here `equals sampleModel sampleModel 1` holds, `1 < 2`, and
monotonicity transports it to tolerance 2. -/
theorem equals_tol_monotone_witness :
    CameraParams.equals sampleModel sampleModel 1 = true ∧ (1 : ℚ) < 2 ∧
    CameraParams.equals sampleModel sampleModel 2 = true :=
  ⟨equals_refl_of_pos sampleModel 1 (by decide), by decide,
   equals_tol_monotone sampleModel sampleModel 1 2
     (equals_refl_of_pos sampleModel 1 (by decide)) (by decide)⟩

/-- C7: a line whose label is not one of the five recognized labels for the
given camera id leaves the whole scan state unchanged, and a legacy parse is
unchanged if all such lines are removed from the file (filtering the file down
to the recognized lines gives the same result). -/
theorem parseKITTICalib_ignores_unrecognized :
    (∀ cam_id st l, recognizedLabel cam_id l.label = false →
      processLine cam_id st l = st) ∧
    (∀ filelines R_ref T_ref cam_id m,
      parseKITTICalib (filelines.filter (fun l => recognizedLabel cam_id l.label))
          R_ref T_ref cam_id m
        = parseKITTICalib filelines R_ref T_ref cam_id m) := by
  constructor
  · exact processLine_unrecognized
  · intro filelines R_ref T_ref cam_id m
    unfold parseKITTICalib kittiScan
    rw [foldl_filter_recognized]

/-- Witness for C7: a record for camera id 01 is ignored while parsing camera
id 00. -/
theorem parseKITTICalib_ignores_unrecognized_witness :
    recognizedLabel ("00") ("S_01:") = false ∧
    processLine ("00") ⟨CameraParams.empty, [], 0, 0⟩ ⟨"S_01:", [7, 8]⟩
      = ⟨CameraParams.empty, [], 0, 0⟩ :=
  ⟨by decide,
   parseKITTICalib_ignores_unrecognized.1 ("00") ⟨CameraParams.empty, [], 0, 0⟩
     ⟨"S_01:", [7, 8]⟩ (by decide)⟩

/-- C8: in the legacy parser the projection model is built from the four
intrinsics plus only the first four parsed distortion coefficients, with skew
fixed at 0; the fifth coefficient is stored in slot 5 of
`distortion_coeff_` but never reaches the projection model (whose constructor
takes no fifth radial term). -/
theorem parseKITTICalib_drops_fifth_coeff (kvals : List ℚ) (c1 c2 c3 c4 c5 : ℚ)
    (R_ref : Mat3) (T_ref : Vec3) (m : CameraParams) :
    (parseKITTICalib [⟨"K_0:", kvals⟩, ⟨"D_0:", [c1, c2, c3, c4, c5]⟩]
        R_ref T_ref ("0") m).1.distortion_coeff_ = [c1, c2, c3, c4, c5] ∧
    (parseKITTICalib [⟨"K_0:", kvals⟩, ⟨"D_0:", [c1, c2, c3, c4, c5]⟩]
        R_ref T_ref ("0") m).1.calibration_
      = ⟨getIdx kvals 0, getIdx kvals 4, 0, getIdx kvals 2, getIdx kvals 5,
         c1, c2, c3, c4⟩ :=
  ⟨rfl, rfl⟩

/-- C9: if a recognized label never occurs in the file, the legacy parse still
completes (returning `true`) and the corresponding field keeps its previous /
default-zero value: the model fields for `S_`, `K_` and `D_` are left at the
values the model started with, and the scanned rotation and translation stay
the zero-initialised `cvR`, `cvT`. -/
theorem parseKITTICalib_missing_labels (filelines : List KLine) (R_ref : Mat3)
    (T_ref : Vec3) (cam_id : String) (m : CameraParams) :
    (parseKITTICalib filelines R_ref T_ref cam_id m).2 = true ∧
    ((∀ l ∈ filelines, l.label ≠ "S_" ++ cam_id ++ ":") →
      (parseKITTICalib filelines R_ref T_ref cam_id m).1.image_size_
        = m.image_size_) ∧
    ((∀ l ∈ filelines, l.label ≠ "K_" ++ cam_id ++ ":") →
      (parseKITTICalib filelines R_ref T_ref cam_id m).1.intrinsics_
          = m.intrinsics_ ∧
      (parseKITTICalib filelines R_ref T_ref cam_id m).1.camera_matrix_
          = m.camera_matrix_) ∧
    ((∀ l ∈ filelines, l.label ≠ "D_" ++ cam_id ++ ":") →
      (parseKITTICalib filelines R_ref T_ref cam_id m).1.distortion_coeff_
        = m.distortion_coeff_) ∧
    ((∀ l ∈ filelines, l.label ≠ "R_" ++ cam_id ++ ":") →
      (kittiScan cam_id filelines m).cvR = 0) ∧
    ((∀ l ∈ filelines, l.label ≠ "T_" ++ cam_id ++ ":") →
      (kittiScan cam_id filelines m).cvT = 0) := by
  refine ⟨rfl, ?_, ?_, ?_, ?_, ?_⟩
  · exact fun h => foldl_image_size cam_id filelines _ h
  · exact fun h => foldl_intrinsics cam_id filelines _ h
  · exact fun h => foldl_distortion cam_id filelines _ h
  · exact fun h => foldl_cvR cam_id filelines _ h
  · exact fun h => foldl_cvT cam_id filelines _ h

/-- Witness for C9: a file holding one unrecognized record only. -/
theorem parseKITTICalib_missing_labels_witness :
    (∀ l ∈ [(⟨"X_0:", [1]⟩ : KLine)], l.label ≠ "S_" ++ "0" ++ ":") ∧
    (∀ l ∈ [(⟨"X_0:", [1]⟩ : KLine)], l.label ≠ "K_" ++ "0" ++ ":") ∧
    (∀ l ∈ [(⟨"X_0:", [1]⟩ : KLine)], l.label ≠ "D_" ++ "0" ++ ":") ∧
    (∀ l ∈ [(⟨"X_0:", [1]⟩ : KLine)], l.label ≠ "R_" ++ "0" ++ ":") ∧
    (∀ l ∈ [(⟨"X_0:", [1]⟩ : KLine)], l.label ≠ "T_" ++ "0" ++ ":") ∧
    (parseKITTICalib [⟨"X_0:", [1]⟩] 1 0 ("0") CameraParams.empty).2 = true ∧
    (parseKITTICalib [⟨"X_0:", [1]⟩] 1 0 ("0") CameraParams.empty).1.image_size_
      = CameraParams.empty.image_size_ ∧
    (parseKITTICalib [⟨"X_0:", [1]⟩] 1 0 ("0") CameraParams.empty).1.intrinsics_
      = CameraParams.empty.intrinsics_ ∧
    (parseKITTICalib [⟨"X_0:", [1]⟩] 1 0 ("0") CameraParams.empty).1.distortion_coeff_
      = CameraParams.empty.distortion_coeff_ ∧
    (kittiScan ("0") [⟨"X_0:", [1]⟩] CameraParams.empty).cvR = 0 ∧
    (kittiScan ("0") [⟨"X_0:", [1]⟩] CameraParams.empty).cvT = 0 := by
  have H := parseKITTICalib_missing_labels [⟨"X_0:", [1]⟩] 1 0 ("0") CameraParams.empty
  exact ⟨by decide, by decide, by decide, by decide, by decide,
    H.1, H.2.1 (by decide), (H.2.2.1 (by decide)).1, H.2.2.2.1 (by decide),
    H.2.2.2.2.1 (by decide), H.2.2.2.2.2 (by decide)⟩
